import Mathlib

/-!
Verification development for the client-side delta-synchronization core:
a shallow embedding of the DeltaManager (message ordering, bounded delta
fetching, reconnection, acknowledgement scheduling, connection lifecycle)
and of the EpochTracker family (epoch validation, mismatch handling, the
redemption variant).  Sequence numbers and durations are modelled as `Int`
(JavaScript numbers in the source), fallible code as `Except`/sum results,
and the event-emitter side effects as explicit event lists.
-/

/-- A sequenced message as delivered by the server.  Only the field the
ordering logic of `enqueueMessages` reads is modelled. -/
structure SeqMsg where
  sequenceNumber : Int
deriving Repr, DecidableEq

/-- The slice of DeltaManager state touched by `enqueueMessages` once a
handler is attached: `lastQueuedSequenceNumber`, the inbound queue, the
`pending` list, the duplicate-message counter, and the arguments of the
`fetchMissingDeltas` calls issued (gap-fill fetch requests). -/
structure EnqState where
  lastQueuedSequenceNumber : Int
  inbound : List SeqMsg
  pending : List SeqMsg
  duplicateMsgCount : Nat
  fetchCalls : List (Int × Int)
deriving Repr, DecidableEq

/-- `DeltaManager.handleOutOfOrderMessage`: a message at or below
`lastQueuedSequenceNumber` is counted as a duplicate and dropped; otherwise
it is appended to `pending` and a `fetchMissingDeltas` call is issued for
the open range `(lastQueuedSequenceNumber, message.sequenceNumber)`. -/
def handleOutOfOrderMessage (s : EnqState) (m : SeqMsg) : EnqState :=
  if m.sequenceNumber ≤ s.lastQueuedSequenceNumber then
    { s with duplicateMsgCount := s.duplicateMsgCount + 1 }
  else
    { s with pending := s.pending ++ [m],
             fetchCalls := s.fetchCalls ++ [(s.lastQueuedSequenceNumber, m.sequenceNumber)] }

/-- The per-message body of the loop in `DeltaManager.enqueueMessages`
(handler already attached): an in-order message advances
`lastQueuedSequenceNumber` and is pushed onto the inbound queue, any other
message goes through `handleOutOfOrderMessage`. -/
def enqueueMessage (s : EnqState) (m : SeqMsg) : EnqState :=
  if m.sequenceNumber ≠ s.lastQueuedSequenceNumber + 1 then
    handleOutOfOrderMessage s m
  else
    { s with lastQueuedSequenceNumber := m.sequenceNumber,
             inbound := s.inbound ++ [m] }

/-- `DeltaManager.enqueueMessages`: with no handler attached the whole batch
is appended to `pending`; with a handler attached each message runs through
the `enqueueMessage` loop body in order. -/
def enqueueMessages (handlerAttached : Bool) (s : EnqState) (ms : List SeqMsg) : EnqState :=
  if handlerAttached then ms.foldl enqueueMessage s
  else { s with pending := s.pending ++ ms }

/-- C1: once a handler is attached, each message hitting the enqueue path
falls into exactly one of three cases decided against
`lastQueuedSequenceNumber`: the successor message advances
`lastQueuedSequenceNumber` and is pushed onto the inbound queue; a message
beyond the successor is appended to `pending` and triggers a gap-fill fetch
for the open range `(lastQueuedSequenceNumber, sequenceNumber)`; a message
at or below `lastQueuedSequenceNumber` is discarded and bumps the duplicate
counter by one. -/
theorem enqueueMessage_cases (s : EnqState) (m : SeqMsg) :
    (m.sequenceNumber = s.lastQueuedSequenceNumber + 1 →
      enqueueMessage s m =
        { s with lastQueuedSequenceNumber := m.sequenceNumber,
                 inbound := s.inbound ++ [m] }) ∧
    (m.sequenceNumber > s.lastQueuedSequenceNumber + 1 →
      enqueueMessage s m =
        { s with pending := s.pending ++ [m],
                 fetchCalls := s.fetchCalls ++ [(s.lastQueuedSequenceNumber, m.sequenceNumber)] }) ∧
    (m.sequenceNumber ≤ s.lastQueuedSequenceNumber →
      enqueueMessage s m = { s with duplicateMsgCount := s.duplicateMsgCount + 1 }) := by
  refine ⟨fun h => ?_, fun h => ?_, fun h => ?_⟩
  · simp [enqueueMessage, h]
  · unfold enqueueMessage handleOutOfOrderMessage
    rw [if_pos (by omega), if_neg (by omega)]
  · unfold enqueueMessage handleOutOfOrderMessage
    rw [if_pos (by omega), if_pos h]

/-- Concrete instantiation of `enqueueMessage_cases`: from
`lastQueuedSequenceNumber = 5`, message 6 is in order, message 9 opens a gap
fetch for `(5, 9)`, and message 4 is a duplicate. -/
theorem enqueueMessage_cases_witness :
    enqueueMessage ⟨5, [], [], 0, []⟩ ⟨6⟩ = ⟨6, [⟨6⟩], [], 0, []⟩ ∧
    enqueueMessage ⟨5, [], [], 0, []⟩ ⟨9⟩ = ⟨5, [], [⟨9⟩], 0, [(5, 9)]⟩ ∧
    enqueueMessage ⟨5, [], [], 0, []⟩ ⟨4⟩ = ⟨5, [], [], 1, []⟩ :=
  ⟨(enqueueMessage_cases ⟨5, [], [], 0, []⟩ ⟨6⟩).1 (by decide),
   (enqueueMessage_cases ⟨5, [], [], 0, []⟩ ⟨9⟩).2.1 (by decide),
   (enqueueMessage_cases ⟨5, [], [], 0, []⟩ ⟨4⟩).2.2 (by decide)⟩

/-- Wire-visible constants of the DeltaManager. -/
def MaxReconnectDelay : Int := 8000

/-- Initial delay of the reconnect ladder. -/
def InitialReconnectDelay : Int := 1000

/-- Base delay of the delta-fetch backoff. -/
def MissingFetchDelay : Int := 100

/-- Cap of the delta-fetch backoff. -/
def MaxFetchDelay : Int := 10000

/-- Maximum number of deltas requested per `getDeltas` batch. -/
def MaxBatchDeltas : Int := 2000

/-- The dynamically-typed error bag the DeltaManager inspects.  `canRetry =
none` stands for a missing field, a non-object error, or `null`, all of
which the source treats as retryable; `retryAfterSeconds = none` stands for
a missing field. -/
structure ErrorBag where
  canRetry : Option Bool
  retryAfterSeconds : Option Int
deriving Repr, DecidableEq

/-- `canRetryOnError` from the source: always retry unless told otherwise
(a `canRetry` field explicitly set to `false`). -/
def canRetryOnError (e : ErrorBag) : Bool :=
  e.canRetry.getD true

/-- Outcome of the storage interaction inside one `getDeltas` loop
iteration: connecting to delta storage fails (this happens before the local
`canRetry` flag is set to `true`), the `deltaStorage.get` call itself
rejects, or a batch of messages comes back. -/
inductive FetchOutcome where
  | connectFail (e : ErrorBag)
  | getFail (e : ErrorBag)
  | got (deltas : List SeqMsg)
deriving Repr, DecidableEq

/-- Mutable state of one `getDeltas` call: the current `from` cursor
(`from` is a Lean keyword, hence `fromSeq`), the `retry` counter, the
accumulated deltas, and the manager's `closed` flag. -/
structure GDState where
  fromSeq : Int
  retry : Nat
  allDeltas : List SeqMsg
  closed : Bool
deriving Repr, DecidableEq

/-- How a `getDeltas` call came to return: normal success, the loop-head
`closed` test failing, or `closeOnConnectionError` on a fatal fetch error. -/
inductive GDExit where
  | success
  | closedExit
  | fatalExit
deriving Repr, DecidableEq

/-- Result of one iteration of the `getDeltas` loop body: either the
function returns (value, exit kind, final state) or the loop sleeps for
`delay` milliseconds and continues. -/
inductive GDStep where
  | ret (v : List SeqMsg) (exit : GDExit) (s : GDState)
  | cont (s : GDState) (delay : Int)
deriving Repr, DecidableEq

/-- The delay computation at the bottom of the `getDeltas` loop, verbatim
from the source: `retryAfter >= 0 ? retryAfter : Math.min(MaxFetchDelay,
retry !== 0 ? MissingFetchDelay * Math.pow(2, retry) : 0)`.  `retryAfter`
is the per-iteration local, initialized to `0` and overwritten with
`error.retryAfterSeconds` when that field is present. -/
def gdDelay (retryAfter : Int) (retry : Nat) : Int :=
  if retryAfter ≥ 0 then retryAfter
  else min MaxFetchDelay (if retry ≠ 0 then MissingFetchDelay * 2 ^ retry else 0)

/-- The return test of the `getDeltas` loop body, verbatim from the source:
`to === undefined ? lastFetch < maxFetchTo - 1 : to - 1 <= lastFetch`. -/
def gdDone (toSeq : Option Int) (maxFetchTo lastFetch : Int) : Bool :=
  match toSeq with
  | none => lastFetch < maxFetchTo - 1
  | some t => t - 1 ≤ lastFetch

/-- One iteration of the body of `DeltaManager.getDeltas` (the loop head
`while (!this.closed)` is handled by the driver `getDeltasLoop`).  A
storage-connection failure is fatal (the local `canRetry` is still
`false`), as is any error with `canRetry === false`; both run
`closeOnConnectionError` and return `[]`.  A retryable error leaves `from`
unchanged, bumps `retry` (zero deltas were retrieved) and sleeps.  A
successful batch is appended to `allDeltas`; the loop returns when
`to === undefined ? lastFetch < maxFetchTo - 1 : to - 1 <= lastFetch`,
and otherwise continues from `lastFetch`. -/
def getDeltasStep (toSeq : Option Int) (s : GDState) (o : FetchOutcome) : GDStep :=
  match o with
  | .connectFail _ => .ret [] .fatalExit { s with closed := true }
  | .getFail e =>
      if canRetryOnError e then
        let retryAfter : Int := e.retryAfterSeconds.getD 0
        let retry' := s.retry + 1
        .cont { s with retry := retry' } (gdDelay retryAfter retry')
      else
        .ret [] .fatalExit { s with closed := true }
  | .got ds =>
      let lastFetch := ((ds.getLast?).map SeqMsg.sequenceNumber).getD s.fromSeq
      let maxFetchTo := s.fromSeq + MaxBatchDeltas
      let acc := s.allDeltas ++ ds
      if gdDone toSeq maxFetchTo lastFetch then
        .ret acc .success { s with allDeltas := acc }
      else
        let retry' := if ds.length = 0 then s.retry + 1 else 0
        .cont { s with fromSeq := lastFetch, allDeltas := acc, retry := retry' }
          (gdDelay 0 retry')

/-- Driver for the `getDeltas` loop, run against an oracle listing, for
each iteration, whether `close()` happened before the loop-head test and
the outcome of the storage interaction.  Returns `none` when the oracle is
exhausted while the loop would still continue. -/
def getDeltasLoop (toSeq : Option Int) :
    List (Bool × FetchOutcome) → GDState → Option (List SeqMsg × GDExit × GDState)
  | [], s => if s.closed then some ([], .closedExit, s) else none
  | (closeNow, o) :: rest, s =>
      let s0 := if closeNow then { s with closed := true } else s
      if s0.closed then some ([], .closedExit, s0)
      else
        match getDeltasStep toSeq s0 o with
        | .ret v ex s' => some (v, ex, s')
        | .cont s' _ => getDeltasLoop toSeq rest s'

/-- C2 records a code bug.  The per-iteration local `retryAfter` is
initialized to `0`, and the sleep is `retryAfter >= 0 ? retryAfter : min
(MaxFetchDelay, retry !== 0 ? MissingFetchDelay * 2 ^ retry : 0)`; as `0 >=
0` already holds, the exponential branch is unreachable whenever the error
carries no `retryAfterSeconds`, and the loop sleeps 0 ms.  Below, a bounded
iteration (`from = 0`, `to = 100`) whose batch returns zero deltas bumps
the retry counter to 1 yet continues with delay 0, and so does a retryable
error without `retryAfterSeconds`, while the claimed (and textually
present, but dead) backoff expression evaluates to 200 ms. -/
theorem getDeltas_backoff_zero_delay :
    getDeltasStep (some 100) ⟨0, 0, [], false⟩ (.got []) = .cont ⟨0, 1, [], false⟩ 0 ∧
    getDeltasStep (some 100) ⟨0, 0, [], false⟩ (.getFail ⟨none, none⟩) =
      .cont ⟨0, 1, [], false⟩ 0 ∧
    min MaxFetchDelay (MissingFetchDelay * 2 ^ 1) = 200 ∧
    (0 : Int) ≠ 200 := by
  refine ⟨by decide, by decide, by decide, by decide⟩

/-- C3: each successful `getDeltas` iteration computes
`maxFetchTo = from + MaxBatchDeltas` and returns all accumulated deltas
exactly when, writing `lastFetch` for the sequence number of the last delta
of the batch (or the current `from` for an empty batch): `to` is undefined
and `lastFetch < maxFetchTo - 1`, or `to` is defined and
`to - 1 ≤ lastFetch`.  In every other successful iteration the loop
continues with `from := lastFetch`. -/
theorem getDeltas_termination_rule (toSeq : Option Int) (s : GDState) (ds : List SeqMsg) :
    (toSeq = none →
      ((((ds.getLast?).map SeqMsg.sequenceNumber).getD s.fromSeq
          < s.fromSeq + MaxBatchDeltas - 1) →
        getDeltasStep toSeq s (.got ds) =
          .ret (s.allDeltas ++ ds) .success { s with allDeltas := s.allDeltas ++ ds }) ∧
      (¬ (((ds.getLast?).map SeqMsg.sequenceNumber).getD s.fromSeq
          < s.fromSeq + MaxBatchDeltas - 1) →
        getDeltasStep toSeq s (.got ds) =
          .cont { s with fromSeq := ((ds.getLast?).map SeqMsg.sequenceNumber).getD s.fromSeq,
                         allDeltas := s.allDeltas ++ ds,
                         retry := if ds.length = 0 then s.retry + 1 else 0 }
            (gdDelay 0 (if ds.length = 0 then s.retry + 1 else 0)))) ∧
    (∀ t, toSeq = some t →
      ((t - 1 ≤ ((ds.getLast?).map SeqMsg.sequenceNumber).getD s.fromSeq) →
        getDeltasStep toSeq s (.got ds) =
          .ret (s.allDeltas ++ ds) .success { s with allDeltas := s.allDeltas ++ ds }) ∧
      (¬ (t - 1 ≤ ((ds.getLast?).map SeqMsg.sequenceNumber).getD s.fromSeq) →
        getDeltasStep toSeq s (.got ds) =
          .cont { s with fromSeq := ((ds.getLast?).map SeqMsg.sequenceNumber).getD s.fromSeq,
                         allDeltas := s.allDeltas ++ ds,
                         retry := if ds.length = 0 then s.retry + 1 else 0 }
            (gdDelay 0 (if ds.length = 0 then s.retry + 1 else 0)))) := by
  constructor
  · rintro rfl
    constructor
    · intro h
      simp only [getDeltasStep, gdDone]
      rw [if_pos (by simpa using h)]
    · intro h
      simp only [getDeltasStep, gdDone]
      rw [if_neg (by simpa using h)]
  · rintro t rfl
    constructor
    · intro h
      simp only [getDeltasStep, gdDone]
      rw [if_pos (by simpa using h)]
    · intro h
      simp only [getDeltasStep, gdDone]
      rw [if_neg (by simpa using h)]

/-- Concrete instantiation of `getDeltas_termination_rule`: an unbounded
fetch whose batch stops short of `maxFetchTo - 1` returns, and a bounded
fetch (`to = 3000`) that has not yet reached `to - 1` continues from the
last fetched sequence number. -/
theorem getDeltas_termination_rule_witness :
    getDeltasStep none ⟨0, 0, [], false⟩ (.got [⟨1⟩]) =
      .ret [⟨1⟩] .success ⟨0, 0, [⟨1⟩], false⟩ ∧
    getDeltasStep (some 3000) ⟨0, 0, [], false⟩ (.got [⟨1⟩]) =
      .cont ⟨1, 0, [⟨1⟩], false⟩ 0 :=
  ⟨((getDeltas_termination_rule none ⟨0, 0, [], false⟩ [⟨1⟩]).1 rfl).1 (by decide),
   ((getDeltas_termination_rule (some 3000) ⟨0, 0, [], false⟩ [⟨1⟩]).2 3000 rfl).2
     (by decide)⟩

/-- Any non-success return of a `getDeltas` iteration carries the empty
list and a closed manager: only fatal errors make the body itself return. -/
theorem getDeltasStep_ret_nonsuccess (toSeq : Option Int) (s : GDState) (o : FetchOutcome)
    (v : List SeqMsg) (ex : GDExit) (s' : GDState)
    (hret : getDeltasStep toSeq s o = .ret v ex s') (hex : ex ≠ .success) :
    v = [] ∧ ex = .fatalExit ∧ s'.closed = true := by
  cases o with
  | connectFail e =>
      simp only [getDeltasStep, GDStep.ret.injEq] at hret
      obtain ⟨rfl, rfl, rfl⟩ := hret
      exact ⟨rfl, rfl, rfl⟩
  | getFail e =>
      simp only [getDeltasStep] at hret
      split at hret
      · cases hret
      · simp only [GDStep.ret.injEq] at hret
        obtain ⟨rfl, rfl, rfl⟩ := hret
        exact ⟨rfl, rfl, rfl⟩
  | got ds =>
      simp only [getDeltasStep] at hret
      split at hret
      · simp only [GDStep.ret.injEq] at hret
        exact absurd hret.2.1.symm hex
      · cases hret

/-- C10: `getDeltas` never rejects — the embedding is a total function into
plain values — and it resolves with the empty array when the manager is
closed at entry (or becomes closed at any loop iteration) and when a fetch
fails fatally, in which case `closeOnConnectionError` closes the manager
before the empty array is returned.  A storage-connection failure and an
error with `canRetry === false` are the fatal cases. -/
theorem getDeltas_never_rejects (toSeq : Option Int)
    (trace : List (Bool × FetchOutcome)) (s : GDState) :
    (s.closed = true → ∃ s', getDeltasLoop toSeq trace s = some ([], .closedExit, s')) ∧
    (∀ v ex s', getDeltasLoop toSeq trace s = some (v, ex, s') → ex ≠ .success →
      v = [] ∧ (ex = .fatalExit → s'.closed = true)) ∧
    (∀ e, getDeltasStep toSeq s (.connectFail e) =
      .ret [] .fatalExit { s with closed := true }) ∧
    (∀ e, canRetryOnError e = false →
      getDeltasStep toSeq s (.getFail e) = .ret [] .fatalExit { s with closed := true }) := by
  refine ⟨?_, ?_, fun e => rfl, fun e he => ?_⟩
  · intro hc
    cases trace with
    | nil => exact ⟨s, by simp [getDeltasLoop, hc]⟩
    | cons p rest =>
        obtain ⟨closeNow, o⟩ := p
        refine ⟨if closeNow then { s with closed := true } else s, ?_⟩
        simp only [getDeltasLoop]
        rw [if_pos (by cases closeNow <;> simp [hc])]
  · induction trace generalizing s with
    | nil =>
        intro v ex s' h hex
        simp only [getDeltasLoop] at h
        split at h
        · simp only [Option.some.injEq, Prod.mk.injEq] at h
          obtain ⟨rfl, rfl, rfl⟩ := h
          exact ⟨rfl, by intro hx; cases hx⟩
        · cases h
    | cons p rest ih =>
        intro v ex s' h hex
        obtain ⟨closeNow, o⟩ := p
        simp only [getDeltasLoop] at h
        generalize hg : (if closeNow = true then { s with closed := true } else s) = s0 at h
        by_cases hc : s0.closed = true
        · rw [if_pos hc] at h
          simp only [Option.some.injEq, Prod.mk.injEq] at h
          obtain ⟨rfl, rfl, rfl⟩ := h
          exact ⟨rfl, by intro hx; cases hx⟩
        · rw [if_neg hc] at h
          cases hstep : getDeltasStep toSeq s0 o with
          | ret v0 ex0 s1 =>
              rw [hstep] at h
              simp only [Option.some.injEq, Prod.mk.injEq] at h
              obtain ⟨rfl, rfl, rfl⟩ := h
              obtain ⟨h1, h2, h3⟩ := getDeltasStep_ret_nonsuccess _ _ _ _ _ _ hstep hex
              exact ⟨h1, fun _ => h3⟩
          | cont s1 d =>
              rw [hstep] at h
              exact ih s1 v ex s' h hex
  · simp only [getDeltasStep, he, Bool.false_eq_true, if_false]

/-- Concrete instantiation of `getDeltas_never_rejects`: a loop entered on
a closed manager returns the empty list with a closed exit, and both fatal
fetch outcomes return the empty list with the manager closed. -/
theorem getDeltas_never_rejects_witness :
    (∃ s', getDeltasLoop none [] (⟨0, 0, [], true⟩ : GDState) =
      some ([], .closedExit, s')) ∧
    getDeltasStep none ⟨0, 0, [], false⟩ (.connectFail ⟨none, none⟩) =
      .ret [] .fatalExit ⟨0, 0, [], true⟩ ∧
    getDeltasStep none ⟨0, 0, [], false⟩ (.getFail ⟨some false, none⟩) =
      .ret [] .fatalExit ⟨0, 0, [], true⟩ :=
  ⟨(getDeltas_never_rejects none [] ⟨0, 0, [], true⟩).1 rfl,
   (getDeltas_never_rejects none [] ⟨0, 0, [], false⟩).2.2.1 ⟨none, none⟩,
   (getDeltas_never_rejects none [] ⟨0, 0, [], false⟩).2.2.2 ⟨some false, none⟩ rfl⟩

/-- Modelled from the spec: the protocol-definitions constant naming a
browser client; reconnection is only enabled for browser clients, and the
constant itself lives outside these sources. -/
def Browser : String := "browser"

/-- `canRetryOnError` applied to an optional error: `reconnectOnError` may
run without an error object (nack and disconnect carry none), and the
source treats a missing error as retryable. -/
def canRetryOnErrorOpt : Option ErrorBag → Bool
  | none => true
  | some e => canRetryOnError e

/-- Externally observable actions of `reconnectOnError`, listed in program
order: the `disconnect` event, closing the underlying connection, the
`error` event and `close()` performed by `closeOnConnectionError`, and the
`connectCore` call restarting the connect ladder. -/
inductive RMAction where
  | emitDisconnect (reason : String)
  | closeUnderlying
  | emitError
  | closeManager
  | startConnectCore (reason : String) (delay : Int) (mode : String)
deriving Repr, DecidableEq

/-- The slice of DeltaManager state `reconnectOnError` reads and writes:
the current connection (by identity), the connection mode, the outbound
queue and its paused flag, the `closed` flag, and the constructor-time
`clientType` and `reconnect` settings. -/
structure RMState where
  connection : Option Nat
  connectionMode : String
  outbound : List Nat
  outboundPaused : Bool
  closed : Bool
  clientType : String
  reconnect : Bool
deriving Repr, DecidableEq

/-- `DeltaManager.reconnectOnError`: a stale connection is ignored;
otherwise the connection reference is cleared, the mode set to `"read"`,
the outbound queue paused and cleared, `disconnect(reason)` emitted and the
underlying connection closed.  Then, unless the client is a browser with
reconnect enabled, the manager open and the error retryable, the manager is
closed via `closeOnConnectionError`; in the good case `connectCore` is
restarted with `InitialReconnectDelay` and the caller-supplied mode (the
disconnect and error subscriptions pass the system connection mode). -/
def reconnectOnError (s : RMState) (reason : String) (connId : Nat) (mode : String)
    (error : Option ErrorBag) : RMState × List RMAction :=
  if s.connection ≠ some connId then (s, [])
  else
    let s1 : RMState :=
      { s with connection := none, connectionMode := "read",
               outboundPaused := true, outbound := [] }
    let acts := [RMAction.emitDisconnect reason, RMAction.closeUnderlying]
    if s.clientType ≠ Browser ∨ s.reconnect = false ∨ s.closed = true ∨
        canRetryOnErrorOpt error = false then
      ({ s1 with closed := true },
       acts ++ (if error.isSome then [RMAction.emitError] else []) ++ [RMAction.closeManager])
    else
      (s1, acts ++ [RMAction.startConnectCore reason InitialReconnectDelay mode])

/-- C4 fails as stated: with a non-browser client type, reconnect enabled,
the manager open and a retryable (absent) error on the current connection,
the code closes the manager instead of restarting the connect ladder — the
claim omits the `clientType === Browser` requirement. -/
theorem reconnectOnError_browser_counterexample :
    reconnectOnError ⟨some 1, "write", [7], false, false, "node", true⟩ "lost" 1 "write" none =
      (⟨none, "read", [], true, true, "node", true⟩,
       [RMAction.emitDisconnect "lost", RMAction.closeUnderlying, RMAction.closeManager]) ∧
    RMAction.startConnectCore "lost" InitialReconnectDelay "write" ∉
      (reconnectOnError ⟨some 1, "write", [7], false, false, "node", true⟩
        "lost" 1 "write" none).2 := by
  refine ⟨by decide, by decide⟩

/-- C4 amended: when the live connection emits disconnect or error and it
is still the current connection, the manager clears the connection
reference, sets the mode to `"read"`, pauses and clears the outbound
queue, emits `disconnect(reason)` and closes the underlying connection; it
restarts the connect ladder exactly when the client type is Browser,
reconnect is enabled, the manager is not closed and `canRetry(error)`
holds, and otherwise closes the manager. -/
theorem reconnectOnError_amended (s : RMState) (reason : String) (connId : Nat)
    (mode : String) (error : Option ErrorBag) (hcur : s.connection = some connId) :
    ((reconnectOnError s reason connId mode error).1.connection = none ∧
     (reconnectOnError s reason connId mode error).1.connectionMode = "read" ∧
     (reconnectOnError s reason connId mode error).1.outboundPaused = true ∧
     (reconnectOnError s reason connId mode error).1.outbound = [] ∧
     RMAction.emitDisconnect reason ∈ (reconnectOnError s reason connId mode error).2 ∧
     RMAction.closeUnderlying ∈ (reconnectOnError s reason connId mode error).2) ∧
    ((s.clientType = Browser ∧ s.reconnect = true ∧ s.closed = false ∧
        canRetryOnErrorOpt error = true) →
      (reconnectOnError s reason connId mode error).2 =
        [RMAction.emitDisconnect reason, RMAction.closeUnderlying,
         RMAction.startConnectCore reason InitialReconnectDelay mode] ∧
      (reconnectOnError s reason connId mode error).1.closed = s.closed) ∧
    (¬ (s.clientType = Browser ∧ s.reconnect = true ∧ s.closed = false ∧
        canRetryOnErrorOpt error = true) →
      (reconnectOnError s reason connId mode error).1.closed = true ∧
      RMAction.closeManager ∈ (reconnectOnError s reason connId mode error).2 ∧
      ∀ r d m, RMAction.startConnectCore r d m ∉
        (reconnectOnError s reason connId mode error).2) := by
  have hne : ¬ (s.connection ≠ some connId) := by simp [hcur]
  by_cases hb : (s.clientType ≠ Browser ∨ s.reconnect = false ∨ s.closed = true ∨
      canRetryOnErrorOpt error = false)
  · refine ⟨?_, ?_, ?_⟩
    · simp only [reconnectOnError]
      rw [if_neg hne, if_pos hb]
      cases error <;> simp
    · intro hcond
      exfalso
      rcases hb with h | h | h | h
      · exact h hcond.1
      · rw [hcond.2.1] at h; cases h
      · rw [hcond.2.2.1] at h; cases h
      · rw [hcond.2.2.2] at h; cases h
    · intro _
      simp only [reconnectOnError]
      rw [if_neg hne, if_pos hb]
      refine ⟨rfl, ?_, ?_⟩
      · cases error <;> simp
      · intro r d m
        cases error <;> simp
  · refine ⟨?_, ?_, ?_⟩
    · simp only [reconnectOnError]
      rw [if_neg hne, if_neg hb]
      simp
    · intro _
      simp only [reconnectOnError]
      rw [if_neg hne, if_neg hb]
      exact ⟨rfl, rfl⟩
    · intro hcond
      exfalso
      push_neg at hb
      obtain ⟨h1, h2, h3, h4⟩ := hb
      exact hcond ⟨h1, by simpa using h2, by simpa using h3, by simpa using h4⟩

/-- Concrete instantiation of `reconnectOnError_amended`: a browser client
with reconnect enabled and no error restarts the ladder with the initial
reconnect delay instead of closing. -/
theorem reconnectOnError_amended_witness :
    (reconnectOnError ⟨some 1, "write", [7], false, false, Browser, true⟩
        "lost" 1 "write" none).2 =
      [RMAction.emitDisconnect "lost", RMAction.closeUnderlying,
       RMAction.startConnectCore "lost" InitialReconnectDelay "write"] ∧
    (reconnectOnError ⟨some 1, "write", [7], false, false, Browser, true⟩
        "lost" 1 "write" none).1.closed = false :=
  (reconnectOnError_amended ⟨some 1, "write", [7], false, false, Browser, true⟩
    "lost" 1 "write" none rfl).2.1 ⟨rfl, rfl, rfl, rfl⟩

/-- The message type constant the ack scheduler distinguishes
(MessageType.NoOp). -/
def NoOpType : String := "noop"

/-- Sentinel non-null payload of an immediate no-op ack ("anything other
than null" per the source comment). -/
def ImmediateNoOpResponse : String := ""

/-- The slice of DeltaManager state driving the acknowledgement scheduler:
quorum membership, connection mode, and the number of pending
`updateSequenceNumber` timers.  The source keeps one optional timer handle;
counting timers lets the at-most-one discipline be proved instead of
assumed. -/
structure AckState where
  inQuorum : Bool
  connectionMode : String
  timers : Nat
deriving Repr, DecidableEq

/-- The `active` getter: in quorum and connected in write mode. -/
def active (s : AckState) : Bool :=
  s.inQuorum && s.connectionMode == "write"

/-- A NoOp acknowledgement submission, recording the payload (`none` models
the JavaScript `null`) and the value of `active` at submission time. -/
structure AckEvent where
  payload : Option String
  activeAtSubmit : Bool
deriving Repr, DecidableEq

/-- Stimuli of the acknowledgement scheduler: finishing processing a
message (which runs `scheduleSequenceNumberUpdate`), an external `submit`
call, the 100 ms timer firing, and quorum or mode changes. -/
inductive AckOp where
  | processMsg (msgType : String) (immediateNoOp : Bool)
  | submitCall
  | timerFire
  | quorumChange (inQuorum : Bool)
  | modeChange (mode : String)
deriving Repr, DecidableEq

/-- `stopSequenceNumberUpdate`: clears any pending timer. -/
def stopSequenceNumberUpdate (s : AckState) : AckState :=
  { s with timers := 0 }

/-- `scheduleSequenceNumberUpdate`: an inactive client cancels any pending
timer and submits nothing; an immediate no-op request cancels the timer and
submits a NoOp with the sentinel non-null payload; NoOp messages are never
acknowledged; otherwise a timer is armed when none is pending. -/
def scheduleSequenceNumberUpdate (s : AckState) (msgType : String) (immediateNoOp : Bool) :
    AckState × List AckEvent :=
  if active s = false then (stopSequenceNumberUpdate s, [])
  else if immediateNoOp then
    (stopSequenceNumberUpdate s, [⟨some ImmediateNoOpResponse, active s⟩])
  else if msgType = NoOpType then (s, [])
  else if s.timers = 0 then ({ s with timers := s.timers + 1 }, [])
  else (s, [])

/-- The 100 ms timer callback: the handle is cleared first, then a NoOp
with payload `null` is submitted iff the client is still active (the inner
`submit` runs `stopSequenceNumberUpdate`, a no-op at that point). -/
def ackTimerFire (s : AckState) : AckState × List AckEvent :=
  if s.timers = 0 then (s, [])
  else
    let s1 := { s with timers := s.timers - 1 }
    if active s1 then (stopSequenceNumberUpdate s1, [⟨none, active s1⟩])
    else (s1, [])

/-- One stimulus of the acknowledgement scheduler. -/
def ackStep (s : AckState) : AckOp → AckState × List AckEvent
  | .processMsg t imm => scheduleSequenceNumberUpdate s t imm
  | .submitCall => (stopSequenceNumberUpdate s, [])
  | .timerFire => ackTimerFire s
  | .quorumChange b => ({ s with inQuorum := b }, [])
  | .modeChange m => ({ s with connectionMode := m }, [])

/-- Run a list of stimuli, accumulating the NoOp submissions. -/
def ackRun (s : AckState) : List AckOp → AckState × List AckEvent
  | [] => (s, [])
  | op :: ops =>
      let r := ackStep s op
      let r' := ackRun r.1 ops
      (r'.1, r.2 ++ r'.2)

/-- A single stimulus keeps the timer count at most one and only submits
while active. -/
theorem ackStep_inv (s : AckState) (op : AckOp) (h : s.timers ≤ 1) :
    (ackStep s op).1.timers ≤ 1 ∧
    ∀ e ∈ (ackStep s op).2, e.activeAtSubmit = true := by
  cases op with
  | processMsg t imm =>
      simp only [ackStep, scheduleSequenceNumberUpdate, stopSequenceNumberUpdate]
      split_ifs with h1 h2 h3 h4 <;> simp_all
  | submitCall => simp [ackStep, stopSequenceNumberUpdate]
  | timerFire =>
      simp only [ackStep, ackTimerFire, stopSequenceNumberUpdate]
      split_ifs with h1 h2 <;> simp_all
  | quorumChange b => simpa [ackStep] using h
  | modeChange m => simpa [ackStep] using h

/-- Any run from a state with at most one pending timer keeps at most one
pending timer, and every submission happens while active. -/
theorem ackRun_inv (ops : List AckOp) (s : AckState) (h : s.timers ≤ 1) :
    (ackRun s ops).1.timers ≤ 1 ∧
    ∀ e ∈ (ackRun s ops).2, e.activeAtSubmit = true := by
  induction ops generalizing s with
  | nil => simpa [ackRun] using h
  | cons op ops ih =>
      obtain ⟨h1, h2⟩ := ackStep_inv s op h
      obtain ⟨h3, h4⟩ := ih (ackStep s op).1 h1
      refine ⟨by simpa [ackRun] using h3, ?_⟩
      intro e he
      simp only [ackRun, List.mem_append] at he
      rcases he with he | he
      · exact h2 e he
      · exact h4 e he

/-- C5: from a fresh scheduler (no pending timer) and any stimulus
sequence, at most one ack timer is ever pending; no NoOp acknowledgement is
submitted while `active` (in quorum and mode write) is false; a `submit`
call always cancels the pending timer; a pending timer's firing clears it
and submits a NoOp with payload `null` iff the client is still active at
fire time; and processing a non-NoOp message while active with no timer
pending arms exactly one timer without submitting. -/
theorem ack_discipline (ops : List AckOp) (q : Bool) (m : String) :
    ((ackRun ⟨q, m, 0⟩ ops).1.timers ≤ 1) ∧
    (∀ e ∈ (ackRun ⟨q, m, 0⟩ ops).2, e.activeAtSubmit = true) ∧
    (∀ s : AckState, (ackStep s .submitCall).1.timers = 0) ∧
    (∀ s : AckState, s.timers = 1 →
      (ackTimerFire s).2 = (if active s then [⟨none, true⟩] else []) ∧
      (ackTimerFire s).1.timers = 0) ∧
    (∀ s : AckState, active s = true → s.timers = 0 → ∀ t, t ≠ NoOpType →
      scheduleSequenceNumberUpdate s t false = ({ s with timers := 1 }, [])) := by
  obtain ⟨h1, h2⟩ := ackRun_inv ops ⟨q, m, 0⟩ (by simp)
  refine ⟨h1, h2, fun s => rfl, fun s hs => ?_, fun s ha hz t ht => ?_⟩
  · obtain ⟨iq, cm, tm⟩ := s
    simp only at hs
    subst hs
    cases h : (iq && cm == "write") <;>
      simp [ackTimerFire, active, stopSequenceNumberUpdate, h]
  · simp only [scheduleSequenceNumberUpdate, ha, hz, ht]
    simp

/-- Concrete instantiation of `ack_discipline`: an active client processes
a non-NoOp message (arming one timer), the timer fires and submits the
null-payload NoOp, and a submit call cancels a pending timer. -/
theorem ack_discipline_witness :
    (ackRun ⟨true, "write", 0⟩ [AckOp.processMsg "op" false, AckOp.timerFire]).1.timers ≤ 1 ∧
    (ackTimerFire ⟨true, "write", 1⟩).2 = [⟨none, true⟩] ∧
    (ackTimerFire ⟨true, "read", 1⟩).2 = [] ∧
    (ackStep ⟨true, "write", 1⟩ .submitCall).1.timers = 0 ∧
    scheduleSequenceNumberUpdate ⟨true, "write", 0⟩ "op" false =
      (⟨true, "write", 1⟩, []) :=
  ⟨(ack_discipline [AckOp.processMsg "op" false, AckOp.timerFire] true "write").1,
   ((ack_discipline [] true "write").2.2.2.1 ⟨true, "write", 1⟩ rfl).1,
   ((ack_discipline [] true "read").2.2.2.1 ⟨true, "read", 1⟩ rfl).1,
   (ack_discipline [] true "write").2.2.1 ⟨true, "write", 1⟩,
   (ack_discipline [] true "write").2.2.2.2 ⟨true, "write", 0⟩ rfl rfl "op" (by decide)⟩

/-- JavaScript truthiness of an optional epoch string: `undefined`/`null`
map to `none`, and the empty string is falsy. -/
def truthy : Option String → Bool
  | none => false
  | some s => s ≠ ""

/-- The OdspErrorType tag compared by `checkForEpochError`
(OdspErrorType.epochVersionMismatch). -/
def epochVersionMismatch : String := "epochVersionMismatch"

/-- An error as seen by the epoch tracker: only the fields it reads. -/
structure OdspError where
  errorMessage : String
  errorType : String
deriving Repr, DecidableEq

/-- Modelled from the spec: `throwOdspNetworkError(message,
fluidEpochMismatchError)` (from the odsp-doclib-utils package, outside
these sources) surfaces an error whose `errorType` is
`epochVersionMismatch`. -/
def epochMismatchError (message : String) : OdspError :=
  ⟨message, epochVersionMismatch⟩

/-- The EpochTracker state the claims touch: the learnt epoch and whether
`fileEntry` has been configured. -/
structure EpochState where
  fluidEpoch : Option String
  fileEntrySet : Bool
deriving Repr, DecidableEq

/-- Telemetry events of the epoch tracker relevant to the claims. -/
inductive EpochEvent where
  | epochLearnedFirstTime (epoch : String)
deriving Repr, DecidableEq

/-- `EpochTracker.checkForEpochErrorCore`: throws the epoch-mismatch error
exactly when both the stored epoch and the response epoch are truthy and
differ; the message defaults to "Epoch Mismatch". -/
def checkForEpochErrorCore (localEpoch resp : Option String) (message : Option String) :
    Except OdspError Unit :=
  if truthy localEpoch ∧ truthy resp ∧ localEpoch ≠ resp then
    .error (epochMismatchError (message.getD "Epoch Mismatch"))
  else .ok ()

/-- `EpochTracker.validateEpochFromResponse`: run the core check, then — if
the response epoch is truthy — adopt it, emitting `EpochLearnedFirstTime`
when no epoch was known before. -/
def validateEpochFromResponse (s : EpochState) (resp : Option String) :
    Except OdspError (EpochState × List EpochEvent) :=
  match checkForEpochErrorCore s.fluidEpoch resp none with
  | .error e => .error e
  | .ok _ =>
      match resp with
      | some e =>
          if e ≠ "" then
            .ok ({ s with fluidEpoch := some e },
                 if s.fluidEpoch = none then [.epochLearnedFirstTime e] else [])
          else .ok (s, [])
      | none => .ok (s, [])

/-- The state after validation: a thrown validation error leaves the
tracker unchanged. -/
def applyValidate (s : EpochState) (resp : Option String) : EpochState :=
  match validateEpochFromResponse s resp with
  | .ok (s', _) => s'
  | .error _ => s

/-- C6: validating a response epoch behaves by cases — local epoch unset
and response epoch present: adopt it and emit `EpochLearnedFirstTime`;
both present and different: fail with the epoch-mismatch error, local
epoch unchanged; response epoch absent: no state change, no event, no
error. -/
theorem validateEpoch_cases (s : EpochState) (resp : Option String) :
    (∀ e, resp = some e → e ≠ "" → s.fluidEpoch = none →
      validateEpochFromResponse s resp =
        .ok ({ s with fluidEpoch := some e }, [.epochLearnedFirstTime e])) ∧
    (truthy s.fluidEpoch = true → truthy resp = true → s.fluidEpoch ≠ resp →
      validateEpochFromResponse s resp = .error (epochMismatchError "Epoch Mismatch") ∧
      applyValidate s resp = s) ∧
    (truthy resp = false →
      validateEpochFromResponse s resp = .ok (s, [])) := by
  refine ⟨?_, ?_, ?_⟩
  · rintro e rfl he hn
    have hcore : checkForEpochErrorCore none (some e) none = .ok () := by
      simp [checkForEpochErrorCore, truthy]
    simp [validateEpochFromResponse, hn, hcore, he]
  · intro h1 h2 h3
    have hcore : checkForEpochErrorCore s.fluidEpoch resp none =
        .error (epochMismatchError "Epoch Mismatch") := by
      simp [checkForEpochErrorCore, h1, h2, h3]
    refine ⟨by simp [validateEpochFromResponse, hcore], ?_⟩
    simp [applyValidate, validateEpochFromResponse, hcore]
  · intro h
    cases resp with
    | none => simp [validateEpochFromResponse, checkForEpochErrorCore, truthy]
    | some e =>
        have he : e = "" := by simpa [truthy] using h
        subst he
        simp [validateEpochFromResponse, checkForEpochErrorCore, truthy]

/-- Concrete instantiation of `validateEpoch_cases`: a fresh tracker learns
epoch "A"; a tracker holding "A" rejects response "B" unchanged; a missing
response epoch is a no-op. -/
theorem validateEpoch_cases_witness :
    validateEpochFromResponse ⟨none, true⟩ (some "A") =
      .ok (⟨some "A", true⟩, [.epochLearnedFirstTime "A"]) ∧
    (validateEpochFromResponse ⟨some "A", true⟩ (some "B") =
      .error (epochMismatchError "Epoch Mismatch") ∧
     applyValidate ⟨some "A", true⟩ (some "B") = ⟨some "A", true⟩) ∧
    validateEpochFromResponse ⟨some "A", true⟩ none = .ok (⟨some "A", true⟩, []) :=
  ⟨(validateEpoch_cases ⟨none, true⟩ (some "A")).1 "A" rfl (by decide) rfl,
   (validateEpoch_cases ⟨some "A", true⟩ (some "B")).2.1 (by decide) (by decide) (by decide),
   (validateEpoch_cases ⟨some "A", true⟩ none).2.2 rfl⟩

/-- An error inspected by `checkForEpochError`: only the fields it reads
(`errorType` and `errorMessage` may be absent on a dynamic error). -/
structure ErrorInfo where
  errorType : Option String
  errorMessage : Option String
deriving Repr, DecidableEq

/-- How `EpochTracker.checkForEpochError` concludes: not handled (any other
`errorType` returns normally, so the caller rethrows the original error),
rethrown as a throttling error (coherency 409, no purge), cache purged via
`removeEntries(fileEntry)` and the epoch error rethrown, or the
`fileEntry`-must-be-set assertion fired. -/
inductive EpochCheckResult where
  | notHandled
  | throttled (message : Option String) (retryAfterMs : Int) (statusCode : Int)
  | purgedAndRethrown (e : OdspError)
  | assertionFailed
deriving Repr, DecidableEq

/-- `EpochTracker.checkForEpochError`: only errors tagged
`epochVersionMismatch` are handled.  The core check is re-run with the
stored and response epochs: if it throws, the cache entries for the
configured `fileEntry` (asserted set) are removed and the epoch error is
rethrown; if it does not, the mismatch was a coherency 409 and a
`ThrottlingError(errorMessage, 1000, 429)` is thrown instead, with no
purge. -/
def checkForEpochError (s : EpochState) (err : ErrorInfo) (resp : Option String) :
    EpochCheckResult :=
  if err.errorType = some epochVersionMismatch then
    match checkForEpochErrorCore s.fluidEpoch resp err.errorMessage with
    | .error epochError =>
        if s.fileEntrySet then .purgedAndRethrown epochError else .assertionFailed
    | .ok _ => .throttled err.errorMessage 1000 429
  else .notHandled

/-- C7: on an error whose `errorType` is `epochVersionMismatch`, if the
stored epoch and the response epoch agree (the core check passes), the
error is rethrown as a throttling error with retry-after 1000 ms and status
429 and nothing is purged; otherwise the cache entries for the configured
`fileEntry` are purged (the entry must be set — asserted) and the
epoch-mismatch error is rethrown.  Any other `errorType` is not handled by
this path. -/
theorem checkForEpochError_cases (s : EpochState) (err : ErrorInfo) (resp : Option String) :
    (err.errorType = some epochVersionMismatch →
      (checkForEpochErrorCore s.fluidEpoch resp err.errorMessage = .ok () →
        checkForEpochError s err resp = .throttled err.errorMessage 1000 429) ∧
      (∀ e, checkForEpochErrorCore s.fluidEpoch resp err.errorMessage = .error e →
        s.fileEntrySet = true →
        checkForEpochError s err resp = .purgedAndRethrown e) ∧
      (∀ e, checkForEpochErrorCore s.fluidEpoch resp err.errorMessage = .error e →
        s.fileEntrySet = false →
        checkForEpochError s err resp = .assertionFailed)) ∧
    (err.errorType ≠ some epochVersionMismatch →
      checkForEpochError s err resp = .notHandled) := by
  constructor
  · intro ht
    refine ⟨fun hok => ?_, fun e he hf => ?_, fun e he hf => ?_⟩
    · simp [checkForEpochError, ht, hok]
    · simp [checkForEpochError, ht, he, hf]
    · simp [checkForEpochError, ht, he, hf]
  · intro ht
    simp [checkForEpochError, ht]

/-- Concrete instantiation of `checkForEpochError_cases`: agreeing epochs
give the 1000 ms / 429 throttling result; a genuine mismatch with a set
file entry purges and rethrows; a different error type is untouched. -/
theorem checkForEpochError_cases_witness :
    checkForEpochError ⟨some "A", true⟩ ⟨some epochVersionMismatch, some "m"⟩ (some "A") =
      .throttled (some "m") 1000 429 ∧
    checkForEpochError ⟨some "A", true⟩ ⟨some epochVersionMismatch, some "m"⟩ (some "B") =
      .purgedAndRethrown ⟨"m", epochVersionMismatch⟩ ∧
    checkForEpochError ⟨some "A", true⟩ ⟨some "genericNetworkError", some "m"⟩ (some "B") =
      .notHandled :=
  ⟨((checkForEpochError_cases ⟨some "A", true⟩ ⟨some epochVersionMismatch, some "m"⟩
      (some "A")).1 rfl).1 rfl,
   ((checkForEpochError_cases ⟨some "A", true⟩ ⟨some epochVersionMismatch, some "m"⟩
      (some "B")).1 rfl).2.1 ⟨"m", epochVersionMismatch⟩ rfl rfl,
   (checkForEpochError_cases ⟨some "A", true⟩ ⟨some "genericNetworkError", some "m"⟩
      (some "B")).2 (by decide)⟩

/-- An HTTP-level error as inspected by the redemption tracker: only the
(possibly absent) status code matters to this path. -/
structure HttpErr where
  statusCode : Option Int
deriving Repr, DecidableEq

/-- Result of an asynchronous fetch, or of awaiting the one-shot latch. -/
inductive FetchRes (T : Type) where
  | ok (v : T)
  | err (e : HttpErr)
deriving Repr, DecidableEq

/-- Observable outcome of `EpochTrackerWithRedemption.fetchAndParseAsJSON`:
the value returned (or error propagated), the error the trees-latest latch
was rejected with (if any), and the number of fetch attempts made. -/
structure RedemptionOutcome (T : Type) where
  result : FetchRes T
  latchRejectedWith : Option HttpErr
  fetchCount : Nat
deriving Repr, DecidableEq

/-- `EpochTrackerWithRedemption.fetchAndParseAsJSON`: the latch-completed
flag is read at entry; on failure, a `treesLatest` fetch rejects the latch
with the same error; unless the fetch was a `joinSession` failing with 404
while the latch was incomplete at entry, the error propagates; otherwise
the call awaits the latch (whose rejection propagates instead) and retries
the request exactly once. -/
def redemptionFetchAndParse {T : Type} (fetchType : String) (completed : Bool)
    (firstTry : FetchRes T) (latchOutcome : FetchRes Unit) (secondTry : FetchRes T) :
    RedemptionOutcome T :=
  match firstTry with
  | .ok v => ⟨.ok v, none, 1⟩
  | .err e =>
      let latchRejectedWith := if fetchType = "treesLatest" then some e else none
      if fetchType ≠ "joinSession" ∨ e.statusCode ≠ some 404 ∨ completed = true then
        ⟨.err e, latchRejectedWith, 1⟩
      else
        match latchOutcome with
        | .err le => ⟨.err le, latchRejectedWith, 1⟩
        | .ok _ => ⟨secondTry, latchRejectedWith, 2⟩

/-- C8: a failing `treesLatest` fetch rejects the latch with that same
error (and the error still propagates); a `joinSession` fetch failing with
HTTP 404 while the latch was not yet completed at entry awaits the latch
and retries exactly once; every other failure propagates unchanged with no
retry. -/
theorem redemptionFetch_cases {T : Type} (fetchType : String) (completed : Bool)
    (firstTry : FetchRes T) (latchOutcome : FetchRes Unit) (secondTry : FetchRes T) :
    (∀ v, firstTry = .ok v →
      redemptionFetchAndParse fetchType completed firstTry latchOutcome secondTry =
        ⟨.ok v, none, 1⟩) ∧
    (∀ e, firstTry = .err e → fetchType = "treesLatest" →
      redemptionFetchAndParse fetchType completed firstTry latchOutcome secondTry =
        ⟨.err e, some e, 1⟩) ∧
    (∀ e, firstTry = .err e → fetchType = "joinSession" → e.statusCode = some 404 →
      completed = false → latchOutcome = .ok () →
      redemptionFetchAndParse fetchType completed firstTry latchOutcome secondTry =
        ⟨secondTry, none, 2⟩) ∧
    (∀ e, firstTry = .err e →
      (fetchType ≠ "joinSession" ∨ e.statusCode ≠ some 404 ∨ completed = true) →
      (redemptionFetchAndParse fetchType completed firstTry latchOutcome secondTry).result =
        .err e ∧
      (redemptionFetchAndParse fetchType completed firstTry latchOutcome
        secondTry).fetchCount = 1) := by
  refine ⟨?_, ?_, ?_, ?_⟩
  · rintro v rfl
    rfl
  · rintro e rfl rfl
    simp [redemptionFetchAndParse]
  · rintro e rfl rfl h404 rfl rfl
    simp [redemptionFetchAndParse, h404]
  · rintro e rfl hcase
    simp only [redemptionFetchAndParse]
    rw [if_pos hcase]
    exact ⟨rfl, rfl⟩

/-- Concrete instantiation of `redemptionFetch_cases`: a failed
`treesLatest` rejects the latch and propagates; a 404 `joinSession` with an
incomplete latch retries once and returns the second attempt; a 404
`joinSession` entered after latch completion propagates with one attempt. -/
theorem redemptionFetch_cases_witness :
    redemptionFetchAndParse "treesLatest" false (.err ⟨some 500⟩) (.ok ()) (.ok (7 : Nat)) =
      ⟨.err ⟨some 500⟩, some ⟨some 500⟩, 1⟩ ∧
    redemptionFetchAndParse "joinSession" false (.err ⟨some 404⟩) (.ok ()) (.ok (7 : Nat)) =
      ⟨.ok 7, none, 2⟩ ∧
    (redemptionFetchAndParse "joinSession" true (.err ⟨some 404⟩) (.ok ())
      (.ok (7 : Nat))).result = .err ⟨some 404⟩ ∧
    (redemptionFetchAndParse "joinSession" true (.err ⟨some 404⟩) (.ok ())
      (.ok (7 : Nat))).fetchCount = 1 :=
  ⟨(redemptionFetch_cases "treesLatest" false (.err ⟨some 500⟩) (.ok ()) (.ok 7)).2.1
     ⟨some 500⟩ rfl rfl,
   (redemptionFetch_cases "joinSession" false (.err ⟨some 404⟩) (.ok ()) (.ok 7)).2.2.1
     ⟨some 404⟩ rfl rfl rfl rfl rfl,
   ((redemptionFetch_cases "joinSession" true (.err ⟨some 404⟩) (.ok ()) (.ok 7)).2.2.2
     ⟨some 404⟩ rfl (Or.inr (Or.inr rfl))).1,
   ((redemptionFetch_cases "joinSession" true (.err ⟨some 404⟩) (.ok ()) (.ok 7)).2.2.2
     ⟨some 404⟩ rfl (Or.inr (Or.inr rfl))).2⟩

/-- Connection details as returned by a live connection (only the fields
the `connect` fast path hands back are modelled). -/
structure ConnDetails where
  clientId : String
  mode : String
deriving Repr, DecidableEq

/-- The slice of DeltaManager state `connect` reads: the `closed` flag, the
pending connect `Deferred` (by promise identity) and the live connection's
details. -/
structure ConnectState where
  closed : Bool
  connecting : Option Nat
  connection : Option ConnDetails
deriving Repr, DecidableEq

/-- What a `connect(reason)` call observably does: fail an assertion,
return the already-pending promise, resolve immediately with the live
connection's details, or create a fresh deferred and start `connectCore`. -/
inductive ConnectOutcome where
  | assertFailed
  | pendingPromise (id : Nat)
  | immediateDetails (d : ConnDetails)
  | newAttempt (id : Nat)
deriving Repr, DecidableEq

/-- `DeltaManager.connect`: asserts the manager is not closed; a pending
attempt is returned as-is (asserting no live connection coexists); a live
connection resolves immediately with its details; otherwise a fresh
deferred is stored and `connectCore` started. -/
def connect (s : ConnectState) (freshId : Nat) : ConnectOutcome × ConnectState :=
  if s.closed then (.assertFailed, s)
  else
    match s.connecting with
    | some p =>
        if s.connection.isSome then (.assertFailed, s) else (.pendingPromise p, s)
    | none =>
        match s.connection with
        | some d => (.immediateDetails d, s)
        | none => (.newAttempt freshId, { s with connecting := some freshId })

/-- C9: `connect` never starts a second concurrent attempt — with an
attempt in flight it returns the same pending promise and leaves the state
unchanged; with a live connection it resolves immediately with those
details and contacts no service; after `close()` it fails the assertion;
and a new attempt can only start when neither an attempt nor a connection
exists. -/
theorem connect_single_flight (s : ConnectState) (freshId : Nat) :
    (s.closed = true → connect s freshId = (.assertFailed, s)) ∧
    (∀ p, s.closed = false → s.connecting = some p → s.connection = none →
      connect s freshId = (.pendingPromise p, s)) ∧
    (∀ d, s.closed = false → s.connecting = none → s.connection = some d →
      connect s freshId = (.immediateDetails d, s)) ∧
    (∀ j, (connect s freshId).1 = .newAttempt j →
      s.connecting = none ∧ s.connection = none ∧ j = freshId) := by
  refine ⟨fun hc => ?_, fun p hc hp hn => ?_, fun d hc hp hn => ?_, fun j h => ?_⟩
  · simp [connect, hc]
  · simp [connect, hc, hp, hn]
  · simp [connect, hc, hp, hn]
  · by_cases hc : s.closed
    · simp [connect, hc] at h
    · cases hp : s.connecting with
      | some p =>
          cases hn : s.connection with
          | some d => simp [connect, hc, hp, hn] at h
          | none => simp [connect, hc, hp, hn] at h
      | none =>
          cases hn : s.connection with
          | some d => simp [connect, hc, hp, hn] at h
          | none =>
              simp [connect, hc, hp, hn] at h
              exact ⟨rfl, rfl, h.symm⟩

/-- Concrete instantiation of `connect_single_flight`: a closed manager
fails the assertion; a pending attempt (promise 5) is handed back
unchanged; a live connection's details are returned immediately. -/
theorem connect_single_flight_witness :
    connect ⟨true, none, none⟩ 1 = (.assertFailed, ⟨true, none, none⟩) ∧
    connect ⟨false, some 5, none⟩ 1 = (.pendingPromise 5, ⟨false, some 5, none⟩) ∧
    connect ⟨false, none, some ⟨"c", "write"⟩⟩ 1 =
      (.immediateDetails ⟨"c", "write"⟩, ⟨false, none, some ⟨"c", "write"⟩⟩) :=
  ⟨(connect_single_flight ⟨true, none, none⟩ 1).1 rfl,
   (connect_single_flight ⟨false, some 5, none⟩ 1).2.1 5 rfl rfl rfl,
   (connect_single_flight ⟨false, none, some ⟨"c", "write"⟩⟩ 1).2.2.1
     ⟨"c", "write"⟩ rfl rfl rfl⟩
